import Mathlib

/-
Verification development for the nightfall streaming state manager.

The state manager itself (StateManager, its monitor loop, its cleaner
thread and its public operations) is embedded from src/src/lib.rs.
The helper modules session.rs, error.rs and profile.rs are part of the
repository but are not under src, so the Session type, the error kinds
and the profile types are modelled from the specification, as marked on
each definition.

Time is modelled as a rational number of seconds, speeds as rationals,
and chunk indices as natural numbers. ETA values are rationals measured
in milliseconds where the code compares milliseconds.
-/

namespace Nightfall

/-- Modelled from the spec: profile types from the missing profile.rs.
The spec lists the profile type set as Transmux, Transcode and similar;
a stream is direct play when its single profile is a pure remux. -/
inductive StreamType where
  | transmux
  | transcode
deriving DecidableEq, Repr

/-- Modelled from the spec: a profile descriptor from the missing
profile.rs. The spec treats it as opaque apart from a tag string. -/
structure Profile where
  tag : String
deriving DecidableEq, Repr

/-- Modelled from the spec: the error kinds of the missing error.rs.
SessionDoesntExist and Aborted are the kinds lib.rs constructs;
ChunkNotDone and ProfileChainExhausted appear only in the spec. -/
inductive NightfallError where
  | SessionDoesntExist
  | ChunkNotDone
  | ProfileChainExhausted
  | Aborted
deriving DecidableEq, Repr

/-- Modelled from the spec: the Session of the missing session.rs.
Field names follow the spec data model; the constructor arguments of
Session.new follow the call in StateManager.create in lib.rs.
The field done models is_chunk_done, i.e. which chunk files exist on
disk fully flushed. The field child models whether a transcoder child
is currently live, started_ever models has_started. -/
structure Session where
  id : String
  file : String
  profile : Profile
  start_num : Nat
  outdir : String
  stream_type : StreamType
  ffmpeg_bin : String
  current_chunk : Nat
  raw_speed : ℚ
  paused : Bool
  started_ever : Bool
  child : Bool
  last_activity : ℚ
  chunks_since_init : Nat
  done : Nat → Bool

/-- Modelled from the spec: Session construction is pure and performs
no io; the session is created stopped, with no chunk produced yet.
The argument order matches the call site in StateManager.create. -/
def Session.new (id file : String) (profile : Profile) (start_num : Nat)
    (outdir : String) (stream_type : StreamType) (ffmpeg_bin : String) : Session :=
  { id := id
    file := file
    profile := profile
    start_num := start_num
    outdir := outdir
    stream_type := stream_type
    ffmpeg_bin := ffmpeg_bin
    current_chunk := 0
    raw_speed := 1
    paused := false
    started_ever := false
    child := false
    last_activity := 0
    chunks_since_init := 0
    done := fun _ => false }

/-- Modelled from the spec: has_started reports whether the session was
ever started. -/
def Session.has_started (s : Session) : Bool :=
  s.started_ever

/-- Modelled from the spec: join terminates the child and always leaves
the session without a live child. -/
def Session.join (s : Session) : Session :=
  { s with child := false }

/-- Modelled from the spec: reset_to sets start_num to the given chunk
and deletes the chunk files at indices greater than or equal to it,
keeping the init segment. -/
def Session.reset_to (s : Session) (chunk : Nat) : Session :=
  { s with start_num := chunk, done := fun n => s.done n && decide (n < chunk) }

/-- Modelled from the spec: start spawns the transcoder at offset
start_num, clears paused and marks activity. The fresh run has produced
nothing beyond its starting offset, so current_chunk is the offset. -/
def Session.start (s : Session) (now : ℚ) : Session :=
  { s with
    child := true
    started_ever := true
    paused := false
    current_chunk := s.start_num
    last_activity := now }

/-- Modelled from the spec: cont resumes a paused child. Idempotent. -/
def Session.cont (s : Session) : Session :=
  { s with paused := false }

/-- Modelled from the spec: pause suspends the child. Idempotent. -/
def Session.pause (s : Session) : Session :=
  { s with paused := true }

/-- Modelled from the spec: reset_timeout marks the activity clock. -/
def Session.reset_timeout (s : Session) (now : ℚ) : Session :=
  { s with last_activity := now }

/-- Modelled from the spec: soft timeout, idle longer than 30 seconds. -/
def Session.is_timeout (s : Session) (now : ℚ) : Bool :=
  decide (s.last_activity + 30 < now)

/-- Modelled from the spec: hard timeout, idle longer than 90 seconds. -/
def Session.is_hard_timeout (s : Session) (now : ℚ) : Bool :=
  decide (s.last_activity + 90 < now)

/-- Modelled from the spec: eta_for in milliseconds, computed as
max 0 (chunk - current_chunk) times the nominal five second chunk
duration, divided by the reported speed. Natural subtraction gives the
max with zero. -/
def eta_ms (s : Session) (chunk : Nat) : ℚ :=
  ((chunk - s.current_chunk : Nat) : ℚ) * 5000 / s.raw_speed

/-- Modelled from the spec: eta_for truncated to whole seconds, as the
ChunkEta reply sends Duration.as_secs. -/
def eta_secs (s : Session) (chunk : Nat) : ℤ :=
  ⌊((chunk - s.current_chunk : Nat) : ℚ) * 5 / s.raw_speed⌋

/-- Modelled from the spec: deterministic media chunk path. -/
def chunk_to_path (s : Session) (chunk : Nat) : String :=
  s.outdir ++ "/" ++ toString chunk ++ ".m4s"

/-- Modelled from the spec: deterministic init segment path. -/
def init_seg (s : Session) : String :=
  s.outdir ++ "/init.mp4"

/-- Modelled from the spec: a session is direct play when its profile
chain has length one and that profile is a pure remux. In this code a
session always holds exactly one profile, so direct play reduces to the
stream type being a pure remux. -/
def is_direct_play (s : Session) : Bool :=
  s.stream_type = StreamType.transmux

/-- Modelled from the spec: the profile chain of a session. In this
code a session holds exactly one profile, so its chain is always the
singleton of that profile and is never empty. -/
def session_chain (s : Session) : List Profile :=
  [s.profile]

/-- From lib.rs line 211: the eta tolerance used by the ChunkRequest
peek handling, the maximum of 10000 divided by the raw speed and the
8000 millisecond floor. -/
def eta_tol_request (s : Session) : ℚ :=
  max (10000 / s.raw_speed) 8000

/-- From lib.rs line 294: the eta tolerance used by the
ShouldClientHardSeek reply, the maximum of 10000 divided by the raw
speed and the 5000 millisecond floor. -/
def eta_tol_query (s : Session) : ℚ :=
  max (10000 / s.raw_speed) 5000

@[simp] theorem cont_start_num (s : Session) : (Session.cont s).start_num = s.start_num := rfl
@[simp] theorem cont_current_chunk (s : Session) : (Session.cont s).current_chunk = s.current_chunk := rfl
@[simp] theorem cont_raw_speed (s : Session) : (Session.cont s).raw_speed = s.raw_speed := rfl
@[simp] theorem cont_outdir (s : Session) : (Session.cont s).outdir = s.outdir := rfl
@[simp] theorem cont_done (s : Session) : (Session.cont s).done = s.done := rfl
@[simp] theorem cont_paused (s : Session) : (Session.cont s).paused = false := rfl
@[simp] theorem cont_chunks_since_init (s : Session) :
    (Session.cont s).chunks_since_init = s.chunks_since_init := rfl
@[simp] theorem cont_stream_type (s : Session) : (Session.cont s).stream_type = s.stream_type := rfl

@[simp] theorem cont_eta_ms (s : Session) (k : Nat) : eta_ms (Session.cont s) k = eta_ms s k := rfl
@[simp] theorem cont_eta_tol_request (s : Session) :
    eta_tol_request (Session.cont s) = eta_tol_request s := rfl
@[simp] theorem cont_chunk_to_path (s : Session) (k : Nat) :
    chunk_to_path (Session.cont s) k = chunk_to_path s k := rfl

/-- From lib.rs lines 182 to 186: the hard seek action performed by the
session monitor, namely join, reset_to the requested chunk, start. -/
def hard_seek_to (s : Session) (now : ℚ) (chunk : Nat) : Session :=
  Session.start (Session.reset_to (Session.join s) chunk) now

@[simp] theorem hard_seek_to_paused (s : Session) (now : ℚ) (k : Nat) :
    (hard_seek_to s now k).paused = false := rfl
@[simp] theorem hard_seek_to_start_num (s : Session) (now : ℚ) (k : Nat) :
    (hard_seek_to s now k).start_num = k := rfl
@[simp] theorem hard_seek_to_current_chunk (s : Session) (now : ℚ) (k : Nat) :
    (hard_seek_to s now k).current_chunk = k := rfl
@[simp] theorem hard_seek_to_outdir (s : Session) (now : ℚ) (k : Nat) :
    (hard_seek_to s now k).outdir = s.outdir := rfl
@[simp] theorem hard_seek_to_raw_speed (s : Session) (now : ℚ) (k : Nat) :
    (hard_seek_to s now k).raw_speed = s.raw_speed := rfl
@[simp] theorem hard_seek_to_chunks_since_init (s : Session) (now : ℚ) (k : Nat) :
    (hard_seek_to s now k).chunks_since_init = s.chunks_since_init := rfl
@[simp] theorem hard_seek_to_chunk_to_path (s : Session) (now : ℚ) (k n : Nat) :
    chunk_to_path (hard_seek_to s now k) n = chunk_to_path s n := rfl

/-- From lib.rs: the OpCode enum of operations a route can dispatch to
a session monitor. Each carries a reply channel, modelled as a request
identifier so that replies can be matched to requests. -/
inductive Op where
  | chunkInitRequest (reqId : Nat)
  | chunkRequest (chunk : Nat) (reqId : Nat)
  | chunkEta (chunk : Nat) (reqId : Nat)
  | shouldClientHardSeek (chunk : Nat) (reqId : Nat)
deriving DecidableEq, Repr

/-- Request identifier of an operation, naming its reply channel. -/
def Op.reqId : Op → Nat
  | .chunkInitRequest r => r
  | .chunkRequest _ r => r
  | .chunkEta _ r => r
  | .shouldClientHardSeek _ r => r

/-- Values a monitor can send on a reply channel. -/
inductive RVal where
  | path (p : String)
  | eta (secs : ℤ)
  | seek (b : Bool)
deriving DecidableEq, Repr

/-- A reply as received by the caller of a state manager operation. -/
inductive Reply where
  | ok (v : RVal)
  | err (e : NightfallError)
deriving DecidableEq, Repr

/-- From lib.rs lines 163 and 164: the local state of one session
monitor thread, namely last_chunk_num and last_hard_seek. -/
structure MonState where
  last_hard_seek : ℚ
  last_chunk_num : Nat
deriving DecidableEq, Repr

/-- From lib.rs lines 162 to 164: monitor state at thread spawn,
last_chunk_num zero and last_hard_seek the spawn instant. -/
def MonState.init (now : ℚ) : MonState :=
  { last_hard_seek := now, last_chunk_num := 0 }

/-- Result of the peek handling at the top of the monitor loop. -/
structure PeekOut where
  session : Session
  mstate : MonState
  seeked : Bool

/-- From lib.rs lines 173 to 187: on peeking a ChunkRequest, if the
requested chunk is below the starting chunk of the session, hard seek
and record the seek instant. -/
def peek_backward (s : Session) (m : MonState) (now : ℚ) (k : Nat) : PeekOut :=
  if k < s.start_num then
    { session := hard_seek_to s now k
      mstate := { m with last_hard_seek := now }
      seeked := true }
  else
    { session := s, mstate := m, seeked := false }

/-- From lib.rs lines 190 to 192: if the session is paused at this
point, resume it. -/
def peek_cont (o : PeekOut) : PeekOut :=
  if o.session.paused then { o with session := Session.cont o.session } else o

/-- From lib.rs lines 199 to 208: within fifteen seconds of the last
hard seek, a request more than fifteen chunks past the produced chunk
hard seeks again, recording the seek instant. -/
def peek_cooldown (now : ℚ) (k : Nat) (o : PeekOut) : PeekOut :=
  if o.session.current_chunk + 15 < k ∧ now < o.mstate.last_hard_seek + 15 then
    { session := hard_seek_to o.session now k
      mstate := { o.mstate with last_hard_seek := now }
      seeked := true }
  else o

/-- From lib.rs lines 210 to 223: if the eta of the requested chunk in
milliseconds exceeds the tolerance, hard seek. This branch does not
record the seek instant in last_hard_seek. -/
def peek_eta (now : ℚ) (k : Nat) (o : PeekOut) : PeekOut :=
  if eta_tol_request o.session < eta_ms o.session k then
    { o with session := hard_seek_to o.session now k, seeked := true }
  else o

/-- From lib.rs lines 170 to 224: the full peek handling the monitor
performs when the next queued operation is a ChunkRequest. -/
def peek_phase (s : Session) (m : MonState) (now : ℚ) (k : Nat) : PeekOut :=
  peek_eta now k (peek_cooldown now k (peek_cont (peek_backward s m now k)))

/-- From lib.rs lines 272 to 297: the reply the monitor computes for a
ShouldClientHardSeek operation. True when seeking backward, true within
the fifteen second cooldown for far future chunks, otherwise the eta
comparison against the tolerance with the 5000 millisecond floor. -/
def should_hard_seek_reply (s : Session) (m : MonState) (now : ℚ) (k : Nat) : Bool :=
  if k < s.start_num then true
  else if s.current_chunk + 15 < k ∧ now < m.last_hard_seek + 15 then true
  else decide (eta_tol_query s < eta_ms s k)

/-- Result of one iteration of the monitor loop: the session and
monitor state after the iteration, the remaining queue, and the replies
sent during the iteration. -/
structure StepOut where
  session : Session
  mstate : MonState
  queue : List Op
  replies : List (Nat × Reply)

/-- From lib.rs lines 166 to 301: one iteration of the session monitor
loop. The head of the queue is peeked, the peek handling runs when it
is a ChunkRequest, the head is then dequeued, a paused session is
resumed, and the operation is dispatched. A ChunkRequest or
ChunkInitRequest whose chunk is not done is re-enqueued at the back of
the queue of the same monitor, with no reply sent; the caller keeps
blocking on the reply channel. An empty queue blocks, leaving the state
unchanged. -/
def monitor_step (s : Session) (m : MonState) (now : ℚ) (q : List Op) : StepOut :=
  match q with
  | [] => { session := s, mstate := m, queue := [], replies := [] }
  | op :: rest =>
    let pk : Session × MonState :=
      match op with
      | .chunkRequest k _ =>
        let o := peek_phase s m now k
        (o.session, o.mstate)
      | _ => (s, m)
    let s2 := if pk.1.paused then Session.cont pk.1 else pk.1
    let m1 := pk.2
    match op with
    | .chunkRequest k r =>
      if s2.done k then
        { session := Session.reset_timeout s2 now
          mstate := { m1 with last_chunk_num := k }
          queue := rest
          replies := [(r, Reply.ok (RVal.path (chunk_to_path s2 k)))] }
      else
        { session := s2, mstate := m1, queue := rest ++ [op], replies := [] }
    | .chunkInitRequest r =>
      if s2.done s2.start_num then
        { session := s2
          mstate := m1
          queue := rest
          replies := [(r, Reply.ok (RVal.path (chunk_to_path s2 s2.start_num)))] }
      else
        { session := s2, mstate := m1, queue := rest ++ [op], replies := [] }
    | .chunkEta k r =>
      { session := s2
        mstate := m1
        queue := rest
        replies := [(r, Reply.ok (RVal.eta (eta_secs s2 k)))] }
    | .shouldClientHardSeek k r =>
      { session := s2
        mstate := m1
        queue := rest
        replies := [(r, Reply.ok (RVal.seek (should_hard_seek_reply s2 m1 now k)))] }

/-- From lib.rs lines 145 to 152: one pass of the cleaner thread. Every
session that has soft timed out and is not paused gets paused. Nothing
is ever removed from the map. -/
def cleaner_pass (sessions : List (String × Session)) (now : ℚ) :
    List (String × Session) :=
  sessions.map fun p =>
    if Session.is_timeout p.2 now && !p.2.paused then (p.1, Session.pause p.2) else p

/-- From lib.rs lines 102 to 123: the state manager. The sessions map
and the map of registered per session request channels are association
lists; the requester map also carries the monitor thread state of each
registered session. -/
structure StateManager where
  outdir : String
  ffmpeg_bin : String
  ffprobe_bin : String
  sessions : List (String × Session)
  requesters : List (String × MonState)

/-- Lookup in the sessions association list. -/
def lookupS : List (String × Session) → String → Option Session
  | [], _ => none
  | p :: t, id => if p.1 == id then some p.2 else lookupS t id

/-- Lookup in the requester association list. -/
def lookupR : List (String × MonState) → String → Option MonState
  | [], _ => none
  | p :: t, id => if p.1 == id then some p.2 else lookupR t id

/-- From lib.rs lines 305 to 321: create builds a stopped session with
output directory outdir slash id and stores it in the sessions map,
returning the id. The fresh uuid is a parameter because uuid generation
is external randomness. No channel is registered and the child is not
started. -/
def create (mgr : StateManager) (fresh_id file : String) (profile : Profile)
    (stream_type : StreamType) : String × StateManager :=
  let new_session := Session.new fresh_id file profile 0
    (mgr.outdir ++ "/" ++ fresh_id) stream_type mgr.ffmpeg_bin
  (fresh_id, { mgr with sessions := (fresh_id, new_session) :: mgr.sessions })

/-- From lib.rs lines 382 to 392: get_segment looks up the request
channel, returning SessionDoesntExist when the session has no channel
registered, then sends a ChunkRequest and blocks on the reply. The
blocked call is modelled as none; the reply once the chunk is done is
the chunk path. -/
def get_segment (mgr : StateManager) (session_id : String) (chunk : Nat) :
    Option (Except NightfallError String) :=
  match lookupR mgr.requesters session_id with
  | none => some (Except.error NightfallError.SessionDoesntExist)
  | some _ =>
    match lookupS mgr.sessions session_id with
    | some s =>
      if s.done chunk then some (Except.ok (chunk_to_path s chunk)) else none
    | none => none

/-- From lib.rs lines 394 to 399: exists succeeds exactly when a
request channel is registered for the session id. -/
def exists_session (mgr : StateManager) (session_id : String) :
    Except NightfallError Unit :=
  match lookupR mgr.requesters session_id with
  | none => Except.error NightfallError.SessionDoesntExist
  | some _ => Except.ok ()

/-- From lib.rs lines 401 to 411: eta_for_seg looks up the request
channel, returning SessionDoesntExist when none is registered, then
asks the monitor for the eta in whole seconds. -/
def eta_for_seg (mgr : StateManager) (session_id : String) (chunk : Nat) :
    Option (Except NightfallError ℤ) :=
  match lookupR mgr.requesters session_id with
  | none => some (Except.error NightfallError.SessionDoesntExist)
  | some _ =>
    match lookupS mgr.sessions session_id with
    | some s => some (Except.ok (eta_secs s chunk))
    | none => none

/-- From lib.rs lines 413 to 423: should_client_hard_seek looks up the
request channel, returning SessionDoesntExist when none is registered,
then asks the monitor whether the client should hard seek. -/
def should_client_hard_seek (mgr : StateManager) (session_id : String)
    (chunk : Nat) (now : ℚ) : Option (Except NightfallError Bool) :=
  match lookupR mgr.requesters session_id with
  | none => some (Except.error NightfallError.SessionDoesntExist)
  | some m =>
    match lookupS mgr.sessions session_id with
    | some s => some (Except.ok (should_hard_seek_reply s m now chunk))
    | none => none

/-- From lib.rs lines 323 to 346: init_create registers a request
channel and fresh monitor state for the session and starts it. -/
def init_create (mgr : StateManager) (session_id : String) (now : ℚ) :
    StateManager :=
  match lookupS mgr.sessions session_id with
  | none => mgr
  | some s =>
    { mgr with
      requesters := (session_id, MonState.init now) :: mgr.requesters
      sessions := (session_id, Session.start s now) :: mgr.sessions }

/-- From lib.rs lines 349 to 378: init_or_create. When the session has
started, the registered channel is used, failing with
SessionDoesntExist when none is registered; otherwise init_create runs
first. A ChunkInitRequest is then sent and the call blocks until the
monitor answers, which happens once the chunk at start_num is done; the
blocked call is modelled as none. The monitor reply value is discarded
and the init segment path of the session is returned. -/
def init_or_create (mgr : StateManager) (session_id : String) (now : ℚ) :
    Option (Except NightfallError (String × StateManager)) :=
  match lookupS mgr.sessions session_id with
  | none => some (Except.error NightfallError.SessionDoesntExist)
  | some s =>
    if s.has_started then
      match lookupR mgr.requesters session_id with
      | none => some (Except.error NightfallError.SessionDoesntExist)
      | some _ =>
        if s.done s.start_num then some (Except.ok (init_seg s, mgr)) else none
    else
      let mgr2 := init_create mgr session_id now
      match lookupS mgr2.sessions session_id with
      | none => none
      | some s2 =>
        if s2.done s2.start_num then some (Except.ok (init_seg s2, mgr2)) else none

theorem peek_backward_pos {s : Session} {m : MonState} {now : ℚ} {k : Nat}
    (h : k < s.start_num) :
    peek_backward s m now k =
      { session := hard_seek_to s now k
        mstate := { m with last_hard_seek := now }
        seeked := true } := by
  unfold peek_backward; exact if_pos h

theorem peek_backward_neg {s : Session} {m : MonState} {now : ℚ} {k : Nat}
    (h : ¬ k < s.start_num) :
    peek_backward s m now k = { session := s, mstate := m, seeked := false } := by
  unfold peek_backward; exact if_neg h

@[simp] theorem peek_cont_seeked (o : PeekOut) : (peek_cont o).seeked = o.seeked := by
  unfold peek_cont; split <;> rfl

@[simp] theorem peek_cont_mstate (o : PeekOut) : (peek_cont o).mstate = o.mstate := by
  unfold peek_cont; split <;> rfl

@[simp] theorem peek_cont_current_chunk (o : PeekOut) :
    (peek_cont o).session.current_chunk = o.session.current_chunk := by
  unfold peek_cont; split <;> simp

@[simp] theorem peek_cont_start_num (o : PeekOut) :
    (peek_cont o).session.start_num = o.session.start_num := by
  unfold peek_cont; split <;> simp

@[simp] theorem peek_cont_raw_speed (o : PeekOut) :
    (peek_cont o).session.raw_speed = o.session.raw_speed := by
  unfold peek_cont; split <;> simp

@[simp] theorem peek_cont_done (o : PeekOut) :
    (peek_cont o).session.done = o.session.done := by
  unfold peek_cont; split <;> simp

@[simp] theorem peek_cont_outdir (o : PeekOut) :
    (peek_cont o).session.outdir = o.session.outdir := by
  unfold peek_cont; split <;> simp

@[simp] theorem peek_cont_chunks_since_init (o : PeekOut) :
    (peek_cont o).session.chunks_since_init = o.session.chunks_since_init := by
  unfold peek_cont; split <;> simp

@[simp] theorem peek_cont_eta_ms (o : PeekOut) (k : Nat) :
    eta_ms (peek_cont o).session k = eta_ms o.session k := by
  unfold peek_cont; split <;> simp

@[simp] theorem peek_cont_eta_tol_request (o : PeekOut) :
    eta_tol_request (peek_cont o).session = eta_tol_request o.session := by
  unfold peek_cont; split <;> simp

theorem peek_cooldown_pos {now : ℚ} {k : Nat} {o : PeekOut}
    (h : o.session.current_chunk + 15 < k ∧ now < o.mstate.last_hard_seek + 15) :
    peek_cooldown now k o =
      { session := hard_seek_to o.session now k
        mstate := { o.mstate with last_hard_seek := now }
        seeked := true } := by
  unfold peek_cooldown; exact if_pos h

theorem peek_cooldown_neg {now : ℚ} {k : Nat} {o : PeekOut}
    (h : ¬ (o.session.current_chunk + 15 < k ∧ now < o.mstate.last_hard_seek + 15)) :
    peek_cooldown now k o = o := by
  unfold peek_cooldown; exact if_neg h

@[simp] theorem peek_eta_seeked (now : ℚ) (k : Nat) (o : PeekOut) :
    (peek_eta now k o).seeked =
      (o.seeked || decide (eta_tol_request o.session < eta_ms o.session k)) := by
  unfold peek_eta; split_ifs with h <;> simp [h]

theorem peek_phase_seeked (s : Session) (m : MonState) (now : ℚ) (k : Nat) :
    (peek_phase s m now k).seeked =
      (decide (k < s.start_num) ||
       decide (s.current_chunk + 15 < k ∧ now < m.last_hard_seek + 15) ||
       decide (eta_tol_request s < eta_ms s k)) := by
  by_cases h1 : k < s.start_num
  · rw [peek_phase, peek_backward_pos h1]
    have hcd : ¬ ((peek_cont
        { session := hard_seek_to s now k
          mstate := { m with last_hard_seek := now }
          seeked := true }).session.current_chunk + 15 < k ∧
          now < (peek_cont
        { session := hard_seek_to s now k
          mstate := { m with last_hard_seek := now }
          seeked := true }).mstate.last_hard_seek + 15) := by
      simp only [peek_cont_current_chunk, hard_seek_to_current_chunk]
      exact fun h => absurd h.1 (by omega)
    rw [peek_cooldown_neg hcd]
    simp [h1]
  · rw [peek_phase, peek_backward_neg h1]
    by_cases h2 : s.current_chunk + 15 < k ∧ now < m.last_hard_seek + 15
    · have h2p : (peek_cont
          { session := s, mstate := m, seeked := false }).session.current_chunk + 15 < k ∧
          now < (peek_cont
          { session := s, mstate := m, seeked := false }).mstate.last_hard_seek + 15 := by
        simpa using h2
      rw [peek_cooldown_pos h2p]
      simp [h1, h2]
    · have h2n : ¬ ((peek_cont
          { session := s, mstate := m, seeked := false }).session.current_chunk + 15 < k ∧
          now < (peek_cont
          { session := s, mstate := m, seeked := false }).mstate.last_hard_seek + 15) := by
        simpa using h2
      rw [peek_cooldown_neg h2n]
      simp [h1, h2]

theorem peek_cont_id {o : PeekOut} (h : o.session.paused = false) : peek_cont o = o := by
  unfold peek_cont
  simp [h]

theorem peek_eta_neg {now : ℚ} {k : Nat} {o : PeekOut}
    (h : ¬ eta_tol_request o.session < eta_ms o.session k) : peek_eta now k o = o := by
  unfold peek_eta; exact if_neg h

/-- Evaluation helper: when none of the three seek conditions holds and
the session is not paused, the peek handling changes nothing. -/
theorem peek_phase_id (s : Session) (m : MonState) (now : ℚ) (k : Nat)
    (h1 : ¬ k < s.start_num) (hp : s.paused = false)
    (h2 : ¬ (s.current_chunk + 15 < k ∧ now < m.last_hard_seek + 15))
    (h3 : ¬ eta_tol_request s < eta_ms s k) :
    peek_phase s m now k = { session := s, mstate := m, seeked := false } := by
  rw [peek_phase, peek_backward_neg h1, peek_cont_id (by simpa using hp),
    peek_cooldown_neg (by simpa using h2), peek_eta_neg (by simpa using h3)]

/-- Sample transcode session used as the concrete input of witnesses
and counterexamples: freshly created, started nowhere, no chunk done,
reported speed one. -/
def sampleSession : Session :=
  Session.new "sid" "file.mkv" { tag := "p" } 0 "/out/sid" StreamType.transcode "ffmpeg"

/-- Sample manager holding the sample session with no registered
request channel. -/
def sampleManager : StateManager :=
  { outdir := "/out"
    ffmpeg_bin := "ffmpeg"
    ffprobe_bin := "ffprobe"
    sessions := [("sid", sampleSession)]
    requesters := [] }

/-- C1: for a session and a requested chunk k that is not done, the
ChunkRequest peek handling of the session monitor decides to hard seek
(join, reset_to k, start) exactly when k is below start_num, or k is
more than fifteen chunks past current_chunk and the request is within
fifteen seconds of the last hard seek and k is past the chunk of that
seek, or the eta for k in milliseconds exceeds the maximum of 10000
divided by raw_speed and 8000. The code holds no hard_seeked_at
variable, so it is modelled from the spec as the chunk of the last hard
seek, which the spec keeps equal to start_num; the spec invariant that
start_num is at most current_chunk is also assumed. -/
theorem c1_chunk_request_hard_seek_decision
    (s : Session) (m : MonState) (now : ℚ) (k hard_seeked_at : Nat)
    (_hdone : s.done k = false)
    (hstat : hard_seeked_at = s.start_num)
    (hinv : s.start_num ≤ s.current_chunk) :
    (peek_phase s m now k).seeked =
      (decide (k < s.start_num) ||
        (decide (s.current_chunk + 15 < k) && decide (now < m.last_hard_seek + 15) &&
          decide (hard_seeked_at < k)) ||
        decide (eta_tol_request s < eta_ms s k)) := by
  rw [peek_phase_seeked]
  by_cases hA : k < s.start_num
  · simp [hA]
  · by_cases hB1 : s.current_chunk + 15 < k
    · by_cases hB2 : now < m.last_hard_seek + 15
      · have hx : hard_seeked_at < k := by omega
        simp [hA, hB1, hB2, hx]
      · simp [hA, hB1, hB2]
    · simp [hA, hB1]

/-- Witness for C1 at the sample session, chunk 1, one hundred seconds
after the monitor spawned: no seek condition holds and both sides of
the equivalence evaluate to false. -/
theorem c1_witness :
    sampleSession.done 1 = false ∧
    (0 : Nat) = sampleSession.start_num ∧
    sampleSession.start_num ≤ sampleSession.current_chunk ∧
    (peek_phase sampleSession { last_hard_seek := 0, last_chunk_num := 0 } 100 1).seeked =
      (decide ((1 : Nat) < sampleSession.start_num) ||
        (decide (sampleSession.current_chunk + 15 < 1) &&
          decide ((100 : ℚ) < ({ last_hard_seek := 0, last_chunk_num := 0 } : MonState).last_hard_seek + 15) &&
          decide ((0 : Nat) < 1)) ||
        decide (eta_tol_request sampleSession < eta_ms sampleSession 1)) :=
  ⟨rfl, rfl, Nat.le_refl _,
    c1_chunk_request_hard_seek_decision sampleSession
      { last_hard_seek := 0, last_chunk_num := 0 } 100 1 0 rfl rfl (Nat.le_refl _)⟩

/-- C2 counterexample: the sample session was created and sits in the
sessions map but was never started, so it has no registered request
channel; should_client_hard_seek answers SessionDoesntExist for it and
not false as the claim states. -/
theorem c2_counterexample :
    lookupS sampleManager.sessions "sid" = some sampleSession ∧
    sampleSession.has_started = false ∧
    should_client_hard_seek sampleManager "sid" 3 0 =
      some (Except.error NightfallError.SessionDoesntExist) ∧
    should_client_hard_seek sampleManager "sid" 3 0 ≠ some (Except.ok false) := by
  refine ⟨rfl, rfl, rfl, ?_⟩
  intro h
  simp [should_client_hard_seek, sampleManager, lookupR] at h

/-- C2 amended: a session with no registered request channel gets
SessionDoesntExist rather than false, and the code has no direct play
exemption; for a registered session the monitor answers true when
seeking backward, true within the fifteen second cooldown for chunks
more than fifteen past current_chunk, and otherwise compares the eta
against the tolerance with the 5000 millisecond floor. The 5000
millisecond floor of this query and the 8000 millisecond floor of the
ChunkRequest handling are both preserved. -/
theorem c2_should_client_hard_seek_behavior :
    (∀ (mgr : StateManager) (id : String) (k : Nat) (now : ℚ),
        lookupR mgr.requesters id = none →
        should_client_hard_seek mgr id k now =
          some (Except.error NightfallError.SessionDoesntExist)) ∧
    (∀ (s : Session) (m : MonState) (now : ℚ) (k : Nat),
        should_hard_seek_reply s m now k =
          (decide (k < s.start_num) ||
           decide (s.current_chunk + 15 < k ∧ now < m.last_hard_seek + 15) ||
           decide (eta_tol_query s < eta_ms s k))) ∧
    (∀ s : Session, 8000 ≤ eta_tol_request s ∧ 5000 ≤ eta_tol_query s) := by
  refine ⟨?_, ?_, ?_⟩
  · intro mgr id k now h
    unfold should_client_hard_seek
    rw [h]
  · intro s m now k
    unfold should_hard_seek_reply
    by_cases h1 : k < s.start_num
    · simp [h1]
    · by_cases h2 : s.current_chunk + 15 < k ∧ now < m.last_hard_seek + 15
      · simp [h1, h2]
      · simp [h1, h2]
  · intro s
    exact ⟨le_max_right _ _, le_max_right _ _⟩

/-- Witness for C2 at the sample manager, whose requester map is empty. -/
theorem c2_witness :
    should_client_hard_seek sampleManager "sid" 7 2 =
      some (Except.error NightfallError.SessionDoesntExist) :=
  c2_should_client_hard_seek_behavior.1 sampleManager "sid" 7 2 rfl

/-- C4 counterexample: a direct play session, single pure remux
profile, on which a far future chunk request within the hard seek
cooldown window does perform a hard seek, contradicting the claim that
no hard seek is ever issued for direct play sessions. -/
theorem c4_counterexample :
    is_direct_play { sampleSession with stream_type := StreamType.transmux } = true ∧
    (peek_phase { sampleSession with stream_type := StreamType.transmux }
      { last_hard_seek := 0, last_chunk_num := 0 } 5 100).seeked = true := by
  constructor
  · rfl
  · rw [peek_phase_seeked]
    simp only [Bool.or_eq_true, decide_eq_true_eq]
    refine Or.inl (Or.inr ⟨?_, ?_⟩)
    · show sampleSession.current_chunk + 15 < 100
      norm_num [sampleSession, Session.new]
    · show (5 : ℚ) < 0 + 15
      norm_num

/-- C4 amended: the monitor has no direct play special case and no
segment patcher exists anywhere in the code; a chunk request more than
fifteen chunks past current_chunk arriving within fifteen seconds of
the last hard seek performs a hard seek for every session, direct play
included. -/
theorem c4_hard_seek_ignores_direct_play
    (s : Session) (m : MonState) (now : ℚ) (k : Nat)
    (_hdp : is_direct_play s = true)
    (hfar : s.current_chunk + 15 < k)
    (hwin : now < m.last_hard_seek + 15) :
    (peek_phase s m now k).seeked = true := by
  rw [peek_phase_seeked]
  have h : s.current_chunk + 15 < k ∧ now < m.last_hard_seek + 15 := ⟨hfar, hwin⟩
  simp [h]

@[simp] theorem peek_backward_outdir (s : Session) (m : MonState) (now : ℚ) (k : Nat) :
    (peek_backward s m now k).session.outdir = s.outdir := by
  unfold peek_backward; split <;> simp

@[simp] theorem peek_backward_chunks_since_init (s : Session) (m : MonState) (now : ℚ) (k : Nat) :
    (peek_backward s m now k).session.chunks_since_init = s.chunks_since_init := by
  unfold peek_backward; split <;> simp

@[simp] theorem peek_cooldown_outdir (now : ℚ) (k : Nat) (o : PeekOut) :
    (peek_cooldown now k o).session.outdir = o.session.outdir := by
  unfold peek_cooldown; split <;> simp

@[simp] theorem peek_cooldown_chunks_since_init (now : ℚ) (k : Nat) (o : PeekOut) :
    (peek_cooldown now k o).session.chunks_since_init = o.session.chunks_since_init := by
  unfold peek_cooldown; split <;> simp

@[simp] theorem peek_eta_outdir (now : ℚ) (k : Nat) (o : PeekOut) :
    (peek_eta now k o).session.outdir = o.session.outdir := by
  unfold peek_eta; split <;> simp

@[simp] theorem peek_eta_chunks_since_init (now : ℚ) (k : Nat) (o : PeekOut) :
    (peek_eta now k o).session.chunks_since_init = o.session.chunks_since_init := by
  unfold peek_eta; split <;> simp

@[simp] theorem peek_phase_outdir (s : Session) (m : MonState) (now : ℚ) (k : Nat) :
    (peek_phase s m now k).session.outdir = s.outdir := by
  unfold peek_phase; simp

@[simp] theorem peek_phase_chunks_since_init (s : Session) (m : MonState) (now : ℚ) (k : Nat) :
    (peek_phase s m now k).session.chunks_since_init = s.chunks_since_init := by
  unfold peek_phase; simp

@[simp] theorem peek_cont_session_paused (o : PeekOut) :
    (peek_cont o).session.paused = false := by
  unfold peek_cont
  split
  · simp
  · next h => simpa using h

/-- After the peek handling of a ChunkRequest the session is never
paused: either the cont on line 190 resumed it or a hard seek restarted
it with paused cleared. -/
@[simp] theorem peek_phase_paused (s : Session) (m : MonState) (now : ℚ) (k : Nat) :
    (peek_phase s m now k).session.paused = false := by
  unfold peek_phase peek_eta
  split
  · simp
  · unfold peek_cooldown
    split
    · simp
    · simp

/-- Unfolding equation of the monitor iteration on a ChunkRequest head.
The session is not paused after the peek handling, so the second cont
of line 228 changes nothing. -/
theorem monitor_step_cr (s : Session) (m : MonState) (now : ℚ) (k r : Nat) (rest : List Op) :
    monitor_step s m now (Op.chunkRequest k r :: rest) =
      (if (peek_phase s m now k).session.done k then
        { session := Session.reset_timeout (peek_phase s m now k).session now
          mstate := { (peek_phase s m now k).mstate with last_chunk_num := k }
          queue := rest
          replies := [(r, Reply.ok (RVal.path (chunk_to_path (peek_phase s m now k).session k)))] }
      else
        { session := (peek_phase s m now k).session
          mstate := (peek_phase s m now k).mstate
          queue := rest ++ [Op.chunkRequest k r]
          replies := [] }) := by
  unfold monitor_step
  simp

/-- Unfolding equation of the monitor iteration on a ChunkInitRequest
head. -/
theorem monitor_step_init (s : Session) (m : MonState) (now : ℚ) (r : Nat) (rest : List Op) :
    monitor_step s m now (Op.chunkInitRequest r :: rest) =
      (if s.done s.start_num then
        { session := if s.paused then Session.cont s else s
          mstate := m
          queue := rest
          replies := [(r, Reply.ok (RVal.path (chunk_to_path s s.start_num)))] }
      else
        { session := if s.paused then Session.cont s else s
          mstate := m
          queue := rest ++ [Op.chunkInitRequest r]
          replies := [] }) := by
  unfold monitor_step
  by_cases hp : s.paused = true <;> simp [hp]

/-- Unfolding equation of the monitor iteration on a ChunkEta head. -/
theorem monitor_step_eta (s : Session) (m : MonState) (now : ℚ) (k r : Nat) (rest : List Op) :
    monitor_step s m now (Op.chunkEta k r :: rest) =
      { session := if s.paused then Session.cont s else s
        mstate := m
        queue := rest
        replies := [(r, Reply.ok (RVal.eta (eta_secs s k)))] } := by
  unfold monitor_step
  by_cases hp : s.paused = true <;> simp [hp, eta_secs, Session.cont]

/-- Unfolding equation of the monitor iteration on a
ShouldClientHardSeek head. -/
theorem monitor_step_shs (s : Session) (m : MonState) (now : ℚ) (k r : Nat) (rest : List Op) :
    monitor_step s m now (Op.shouldClientHardSeek k r :: rest) =
      { session := if s.paused then Session.cont s else s
        mstate := m
        queue := rest
        replies := [(r, Reply.ok (RVal.seek (should_hard_seek_reply s m now k)))] } := by
  unfold monitor_step
  by_cases hp : s.paused = true <;>
    simp [hp, should_hard_seek_reply, Session.cont, eta_tol_query, eta_ms]

/-- C3 counterexample: at a freshly created session with no chunk file
on disk, a ChunkRequest for chunk 1 produces no reply at all and the
request is re-enqueued, so the caller stays blocked; the monitor does
not answer ChunkNotDone as the claim states. -/
theorem c3_counterexample :
    (monitor_step sampleSession { last_hard_seek := 0, last_chunk_num := 0 } 100
      [Op.chunkRequest 1 0]).replies = [] ∧
    (monitor_step sampleSession { last_hard_seek := 0, last_chunk_num := 0 } 100
      [Op.chunkRequest 1 0]).queue = [Op.chunkRequest 1 0] ∧
    (monitor_step sampleSession { last_hard_seek := 0, last_chunk_num := 0 } 100
      [Op.chunkRequest 1 0]).replies ≠ [(0, Reply.err NightfallError.ChunkNotDone)] := by
  have hpk : peek_phase sampleSession { last_hard_seek := 0, last_chunk_num := 0 } 100 1 =
      { session := sampleSession
        mstate := { last_hard_seek := 0, last_chunk_num := 0 }
        seeked := false } := by
    refine peek_phase_id _ _ _ _ ?_ rfl ?_ ?_
    · norm_num [sampleSession, Session.new]
    · norm_num [sampleSession, Session.new]
    · rw [not_lt]
      calc eta_ms sampleSession 1 = 5000 := by norm_num [eta_ms, sampleSession, Session.new]
        _ ≤ 8000 := by norm_num
        _ ≤ eta_tol_request sampleSession := le_max_right _ _
  have hstep : monitor_step sampleSession { last_hard_seek := 0, last_chunk_num := 0 } 100
      [Op.chunkRequest 1 0] =
      { session := sampleSession
        mstate := { last_hard_seek := 0, last_chunk_num := 0 }
        queue := [Op.chunkRequest 1 0]
        replies := [] } := by
    rw [monitor_step_cr, hpk]
    simp [sampleSession, Session.new]
  refine ⟨by rw [hstep], by rw [hstep], by rw [hstep]; simp⟩

/-- C3 amended: when the requested chunk is not done after the peek
handling, the monitor sends no reply and re-enqueues the request at the
back of its own queue, so get_segment stays blocked until the chunk is
done; ChunkNotDone is never returned on this path. -/
theorem c3_not_done_requeues (s : Session) (m : MonState) (now : ℚ) (k r : Nat)
    (rest : List Op)
    (h : (peek_phase s m now k).session.done k = false) :
    (monitor_step s m now (Op.chunkRequest k r :: rest)).replies = [] ∧
    (monitor_step s m now (Op.chunkRequest k r :: rest)).queue =
      rest ++ [Op.chunkRequest k r] := by
  rw [monitor_step_cr, if_neg (by simp [h])]
  exact ⟨rfl, rfl⟩

/-- Witness for C3 at the sample session and chunk 2, whose file is not
on disk: no reply, request re-enqueued. -/
theorem c3_witness :
    (peek_phase sampleSession { last_hard_seek := 0, last_chunk_num := 0 } 100 2).session.done 2
      = false ∧
    (monitor_step sampleSession { last_hard_seek := 0, last_chunk_num := 0 } 100
      [Op.chunkRequest 2 5]).replies = [] ∧
    (monitor_step sampleSession { last_hard_seek := 0, last_chunk_num := 0 } 100
      [Op.chunkRequest 2 5]).queue = [] ++ [Op.chunkRequest 2 5] := by
  have hpk : peek_phase sampleSession { last_hard_seek := 0, last_chunk_num := 0 } 100 2 =
      { session := sampleSession
        mstate := { last_hard_seek := 0, last_chunk_num := 0 }
        seeked := false } := by
    refine peek_phase_id _ _ _ _ ?_ rfl ?_ ?_
    · norm_num [sampleSession, Session.new]
    · norm_num [sampleSession, Session.new]
    · rw [not_lt]
      calc eta_ms sampleSession 2 = 10000 := by norm_num [eta_ms, sampleSession, Session.new]
        _ ≤ 10000 / sampleSession.raw_speed := by
            norm_num [sampleSession, Session.new]
        _ ≤ eta_tol_request sampleSession := le_max_left _ _
  have h : (peek_phase sampleSession { last_hard_seek := 0, last_chunk_num := 0 } 100 2).session.done 2
      = false := by rw [hpk]; rfl
  exact ⟨h, (c3_not_done_requeues _ _ _ _ _ _ h).1, (c3_not_done_requeues _ _ _ _ _ _ h).2⟩

/-- C6 amended: the monitor handles messages serially and dequeues them
in arrival order; each iteration either replies to the head of the
queue and removes it, or, for a chunk request or init request whose
chunk is not done, re-enqueues the head at the back without a reply.
Replies can therefore be produced out of arrival order, but each
iteration works on the oldest pending message. -/
theorem c6_serial_dequeue (s : Session) (m : MonState) (now : ℚ) (op : Op)
    (rest : List Op) :
    (∃ rep, (monitor_step s m now (op :: rest)).replies = [(op.reqId, rep)] ∧
        (monitor_step s m now (op :: rest)).queue = rest) ∨
    ((monitor_step s m now (op :: rest)).replies = [] ∧
        (monitor_step s m now (op :: rest)).queue = rest ++ [op]) := by
  cases op with
  | chunkRequest k r =>
    by_cases hd : (peek_phase s m now k).session.done k = true
    · exact Or.inl ⟨Reply.ok (RVal.path (chunk_to_path (peek_phase s m now k).session k)),
        by rw [monitor_step_cr, if_pos hd]; rfl, by rw [monitor_step_cr, if_pos hd]⟩
    · rw [monitor_step_cr, if_neg hd]
      exact Or.inr ⟨rfl, rfl⟩
  | chunkInitRequest r =>
    by_cases hd : s.done s.start_num = true
    · exact Or.inl ⟨Reply.ok (RVal.path (chunk_to_path s s.start_num)),
        by rw [monitor_step_init, if_pos hd]; rfl, by rw [monitor_step_init, if_pos hd]⟩
    · rw [monitor_step_init, if_neg hd]
      exact Or.inr ⟨rfl, rfl⟩
  | chunkEta k r =>
    rw [monitor_step_eta]
    exact Or.inl ⟨Reply.ok (RVal.eta (eta_secs s k)), rfl, rfl⟩
  | shouldClientHardSeek k r =>
    rw [monitor_step_shs]
    exact Or.inl ⟨Reply.ok (RVal.seek (should_hard_seek_reply s m now k)), rfl, rfl⟩

/-- C6 counterexample: a ChunkRequest for a chunk that is not done is
enqueued before a ChunkEta; after one iteration the chunk request has
no reply and sits behind the eta request, and the next iteration
answers the eta request first. The reply of the later enqueued command
is produced before the reply of the earlier one, refuting the claim
that the earlier command is fully handled and its reply produced before
the later one is handled. -/
theorem c6_counterexample :
    (monitor_step sampleSession { last_hard_seek := 0, last_chunk_num := 0 } 100
      [Op.chunkRequest 1 10, Op.chunkEta 0 20]).replies = [] ∧
    (monitor_step sampleSession { last_hard_seek := 0, last_chunk_num := 0 } 100
      [Op.chunkRequest 1 10, Op.chunkEta 0 20]).queue =
      [Op.chunkEta 0 20, Op.chunkRequest 1 10] ∧
    (monitor_step sampleSession { last_hard_seek := 0, last_chunk_num := 0 } 101
      [Op.chunkEta 0 20, Op.chunkRequest 1 10]).replies = [(20, Reply.ok (RVal.eta 0))] ∧
    (monitor_step sampleSession { last_hard_seek := 0, last_chunk_num := 0 } 101
      [Op.chunkEta 0 20, Op.chunkRequest 1 10]).queue = [Op.chunkRequest 1 10] := by
  have hpk : peek_phase sampleSession { last_hard_seek := 0, last_chunk_num := 0 } 100 1 =
      { session := sampleSession
        mstate := { last_hard_seek := 0, last_chunk_num := 0 }
        seeked := false } := by
    refine peek_phase_id _ _ _ _ ?_ rfl ?_ ?_
    · norm_num [sampleSession, Session.new]
    · norm_num [sampleSession, Session.new]
    · rw [not_lt]
      calc eta_ms sampleSession 1 = 5000 := by norm_num [eta_ms, sampleSession, Session.new]
        _ ≤ 8000 := by norm_num
        _ ≤ eta_tol_request sampleSession := le_max_right _ _
  have hstep : monitor_step sampleSession { last_hard_seek := 0, last_chunk_num := 0 } 100
      [Op.chunkRequest 1 10, Op.chunkEta 0 20] =
      { session := sampleSession
        mstate := { last_hard_seek := 0, last_chunk_num := 0 }
        queue := [Op.chunkEta 0 20, Op.chunkRequest 1 10]
        replies := [] } := by
    rw [monitor_step_cr, hpk]
    simp [sampleSession, Session.new]
  have heta : eta_secs sampleSession 0 = 0 := by
    norm_num [eta_secs, sampleSession, Session.new]
  refine ⟨by rw [hstep], by rw [hstep], ?_, ?_⟩
  · rw [monitor_step_eta, heta]
  · rw [monitor_step_eta]

/-- C9: once the requested chunk is done the ChunkRequest handling is
idempotent: any reply it produces is the deterministic path outdir
slash k dot m4s, the output directory never changes across iterations,
and chunks_since_init is never touched by the monitor, so it is not
incremented more than once per produced file. -/
theorem c9_chunk_request_idempotent (s : Session) (m : MonState) (now : ℚ)
    (k r : Nat) (rest : List Op) :
    (monitor_step s m now (Op.chunkRequest k r :: rest)).session.outdir = s.outdir ∧
    (monitor_step s m now (Op.chunkRequest k r :: rest)).session.chunks_since_init =
      s.chunks_since_init ∧
    ((monitor_step s m now (Op.chunkRequest k r :: rest)).replies = [] ∨
     (monitor_step s m now (Op.chunkRequest k r :: rest)).replies =
       [(r, Reply.ok (RVal.path (chunk_to_path s k)))]) := by
  rw [monitor_step_cr]
  by_cases hd : (peek_phase s m now k).session.done k = true
  · rw [if_pos hd]
    refine ⟨?_, ?_, Or.inr ?_⟩
    · simp [Session.reset_timeout]
    · simp [Session.reset_timeout]
    · simp [chunk_to_path]
  · rw [if_neg hd]
    exact ⟨by simp, by simp, Or.inl rfl⟩

/-- Witness for C9 at the sample session: the iteration preserves the
output directory and the chunks_since_init counter. -/
theorem c9_witness :
    (monitor_step sampleSession { last_hard_seek := 0, last_chunk_num := 0 } 100
      [Op.chunkRequest 1 3]).session.outdir = sampleSession.outdir ∧
    (monitor_step sampleSession { last_hard_seek := 0, last_chunk_num := 0 } 100
      [Op.chunkRequest 1 3]).session.chunks_since_init = sampleSession.chunks_since_init :=
  ⟨(c9_chunk_request_idempotent sampleSession
      { last_hard_seek := 0, last_chunk_num := 0 } 100 1 3 []).1,
   (c9_chunk_request_idempotent sampleSession
      { last_hard_seek := 0, last_chunk_num := 0 } 100 1 3 []).2.1⟩

/-- Witness for C4 at a direct play session and chunk 50, seven
seconds into the cooldown window. -/
theorem c4_witness :
    is_direct_play { sampleSession with stream_type := StreamType.transmux } = true ∧
    ({ sampleSession with stream_type := StreamType.transmux } : Session).current_chunk + 15 < 50 ∧
    ((7 : ℚ) < ({ last_hard_seek := 0, last_chunk_num := 0 } : MonState).last_hard_seek + 15) ∧
    (peek_phase { sampleSession with stream_type := StreamType.transmux }
      { last_hard_seek := 0, last_chunk_num := 0 } 7 50).seeked = true := by
  refine ⟨rfl, ?_, ?_, ?_⟩
  · show sampleSession.current_chunk + 15 < 50
    norm_num [sampleSession, Session.new]
  · norm_num
  · exact c4_hard_seek_ignores_direct_play _ _ _ _ rfl
      (by show sampleSession.current_chunk + 15 < 50; norm_num [sampleSession, Session.new])
      (by norm_num)

/-- C5 counterexample: a session idle for one hundred twenty seconds
has hard timed out and is not direct play, yet a cleaner pass keeps it
in the sessions map, merely pausing it; the claim says it is removed. -/
theorem c5_counterexample :
    Session.is_hard_timeout sampleSession 120 = true ∧
    is_direct_play sampleSession = false ∧
    (lookupS (cleaner_pass [("sid", sampleSession)] 120) "sid").isSome = true ∧
    lookupS (cleaner_pass [("sid", sampleSession)] 120) "sid" =
      some (Session.pause sampleSession) := by
  have hc : (Session.is_timeout sampleSession 120 && !sampleSession.paused) = true := by
    have h1 : Session.is_timeout sampleSession 120 = true := by
      simp only [Session.is_timeout, decide_eq_true_eq]
      show sampleSession.last_activity + 30 < 120
      norm_num [sampleSession, Session.new]
    rw [h1]
    rfl
  have hmap : cleaner_pass [("sid", sampleSession)] 120 =
      [("sid", Session.pause sampleSession)] := by
    unfold cleaner_pass
    simp only [List.map_cons, List.map_nil]
    rw [if_pos hc]
  refine ⟨?_, rfl, ?_, ?_⟩
  · simp only [Session.is_hard_timeout, decide_eq_true_eq]
    show sampleSession.last_activity + 90 < 120
    norm_num [sampleSession, Session.new]
  · rw [hmap]; rfl
  · rw [hmap]; rfl

/-- Lookup commutes with a cleaner pass: the entry found for an id
after the pass is the entry found before, paused when it had soft timed
out unpaused. In particular no key disappears. -/
theorem lookupS_cleaner_pass (ms : List (String × Session)) (now : ℚ) (id : String) :
    lookupS (cleaner_pass ms now) id =
      (lookupS ms id).map fun s =>
        if Session.is_timeout s now && !s.paused then Session.pause s else s := by
  induction ms with
  | nil => rfl
  | cons a t ih =>
    simp only [cleaner_pass, List.map_cons] at ih ⊢
    simp only [lookupS]
    have hfst : (if Session.is_timeout a.2 now && !a.2.paused
        then (a.1, Session.pause a.2) else a).1 = a.1 := by
      split <;> rfl
    rw [hfst]
    by_cases hid : (a.1 == id) = true
    · rw [if_pos hid, if_pos hid]
      simp only [Option.map_some']
      split <;> rfl
    · rw [if_neg hid, if_neg hid]
      exact ih

/-- C5 amended: a cleaner pass never removes a session from the map; it
pauses every session that has soft timed out and is not paused,
regardless of hard timeouts, stream type or child liveness, and leaves
every other entry untouched. -/
theorem c5_cleaner_pauses_never_removes (ms : List (String × Session)) (now : ℚ)
    (id : String) (s : Session)
    (hs : lookupS ms id = some s)
    (ht : Session.is_timeout s now = true)
    (hp : s.paused = false) :
    (cleaner_pass ms now).map Prod.fst = ms.map Prod.fst ∧
    lookupS (cleaner_pass ms now) id = some (Session.pause s) := by
  constructor
  · unfold cleaner_pass
    rw [List.map_map]
    apply List.map_congr_left
    intro p _
    simp only [Function.comp_apply]
    split <;> rfl
  · rw [lookupS_cleaner_pass, hs]
    have hc : (Session.is_timeout s now && !s.paused) = true := by
      rw [ht, hp]
      rfl
    simp only [Option.map_some']
    rw [if_pos hc]

/-- Witness for C5: a session idle for forty five seconds has soft
timed out; the cleaner pass keeps the map keys and pauses it. -/
theorem c5_witness :
    Session.is_timeout sampleSession 45 = true ∧
    sampleSession.paused = false ∧
    (cleaner_pass [("sid", sampleSession)] 45).map Prod.fst =
      [("sid", sampleSession)].map Prod.fst ∧
    lookupS (cleaner_pass [("sid", sampleSession)] 45) "sid" =
      some (Session.pause sampleSession) := by
  have ht : Session.is_timeout sampleSession 45 = true := by
    simp only [Session.is_timeout, decide_eq_true_eq]
    show sampleSession.last_activity + 30 < 45
    norm_num [sampleSession, Session.new]
  have h := c5_cleaner_pauses_never_removes [("sid", sampleSession)] 45 "sid"
    sampleSession (by simp [lookupS, List.find?]) ht rfl
  exact ⟨ht, rfl, h.1, h.2⟩

/-- C7: create stores a stopped session under the fresh id with output
directory outdir slash id and returns the id. In this code create takes
exactly one profile, so the profile chain of the stored session is the
singleton of that profile and is never empty; the empty chain rejection
of the claim can never fire and create never fails. -/
theorem c7_create_stores_stopped_session (mgr : StateManager) (fresh_id file : String)
    (p : Profile) (st : StreamType) :
    (create mgr fresh_id file p st).1 = fresh_id ∧
    lookupS (create mgr fresh_id file p st).2.sessions fresh_id =
      some (Session.new fresh_id file p 0 (mgr.outdir ++ "/" ++ fresh_id) st mgr.ffmpeg_bin) ∧
    (Session.new fresh_id file p 0 (mgr.outdir ++ "/" ++ fresh_id) st
      mgr.ffmpeg_bin).outdir = mgr.outdir ++ "/" ++ fresh_id ∧
    (Session.new fresh_id file p 0 (mgr.outdir ++ "/" ++ fresh_id) st
      mgr.ffmpeg_bin).has_started = false ∧
    (Session.new fresh_id file p 0 (mgr.outdir ++ "/" ++ fresh_id) st
      mgr.ffmpeg_bin).child = false ∧
    session_chain (Session.new fresh_id file p 0 (mgr.outdir ++ "/" ++ fresh_id) st
      mgr.ffmpeg_bin) = [p] ∧
    session_chain (Session.new fresh_id file p 0 (mgr.outdir ++ "/" ++ fresh_id) st
      mgr.ffmpeg_bin) ≠ ([] : List Profile) := by
  refine ⟨rfl, ?_, rfl, rfl, rfl, rfl, by simp [session_chain]⟩
  unfold create lookupS
  simp [List.find?]

/-- Session used by the C8 scenario: started, every chunk done, three
chunks served since the last init delivery. -/
def initSession : Session :=
  { sampleSession with
    started_ever := true
    done := fun _ => true
    chunks_since_init := 3 }

/-- Manager used by the C8 scenario: the started session together with
its registered request channel. -/
def initManager : StateManager :=
  { outdir := "/out"
    ffmpeg_bin := "ffmpeg"
    ffprobe_bin := "ffprobe"
    sessions := [("sid", initSession)]
    requesters := [("sid", { last_hard_seek := 0, last_chunk_num := 0 })] }

/-- C8 counterexample: the chunk at start_num is done and
init_or_create returns the init segment path, but the chunks_since_init
counter of the stored session stays at three instead of being reset to
zero; no handler in the code ever touches it. -/
theorem c8_counterexample :
    initSession.done initSession.start_num = true ∧
    init_or_create initManager "sid" 0 =
      some (Except.ok (initSession.outdir ++ "/init.mp4", initManager)) ∧
    (lookupS initManager.sessions "sid").map Session.chunks_since_init = some 3 ∧
    some (3 : Nat) ≠ some (0 : Nat) := by
  refine ⟨rfl, rfl, rfl, by simp⟩

/-- C8 amended: once the chunk at the start of a started and registered
session is done, init_or_create returns the init segment path, outdir
slash init.mp4, and leaves the manager, in particular the
chunks_since_init counter of the session, unchanged. -/
theorem c8_init_returns_init_seg (mgr : StateManager) (id : String) (s : Session)
    (now : ℚ)
    (hs : lookupS mgr.sessions id = some s)
    (hst : s.has_started = true)
    (hr : (lookupR mgr.requesters id).isSome = true)
    (hd : s.done s.start_num = true) :
    init_or_create mgr id now = some (Except.ok (init_seg s, mgr)) ∧
    init_seg s = s.outdir ++ "/init.mp4" ∧
    (lookupS mgr.sessions id).map Session.chunks_since_init =
      some s.chunks_since_init := by
  obtain ⟨mst, hmst⟩ := Option.isSome_iff_exists.mp hr
  refine ⟨?_, rfl, by rw [hs]; rfl⟩
  simp [init_or_create, hs, hst, hmst, hd]

/-- Witness for C8 at the concrete started session with all chunks
done. -/
theorem c8_witness :
    init_or_create initManager "sid" 5 =
      some (Except.ok (init_seg initSession, initManager)) ∧
    init_seg initSession = initSession.outdir ++ "/init.mp4" := by
  have h := c8_init_returns_init_seg initManager "sid" initSession 5 rfl rfl rfl rfl
  exact ⟨h.1, h.2.1⟩

/-- C10: a session freshly created by create is present in the sessions
map but has no registered request channel, because only init_create
registers one; get_segment, eta_for_seg, should_client_hard_seek and
exists therefore all answer SessionDoesntExist for it. -/
theorem c10_pre_init_session_doesnt_exist (mgr : StateManager)
    (fresh_id file : String) (p : Profile) (st : StreamType) (k : Nat) (now : ℚ)
    (h : lookupR mgr.requesters fresh_id = none) :
    (lookupS (create mgr fresh_id file p st).2.sessions fresh_id).isSome = true ∧
    get_segment (create mgr fresh_id file p st).2 fresh_id k =
      some (Except.error NightfallError.SessionDoesntExist) ∧
    eta_for_seg (create mgr fresh_id file p st).2 fresh_id k =
      some (Except.error NightfallError.SessionDoesntExist) ∧
    should_client_hard_seek (create mgr fresh_id file p st).2 fresh_id k now =
      some (Except.error NightfallError.SessionDoesntExist) ∧
    exists_session (create mgr fresh_id file p st).2 fresh_id =
      Except.error NightfallError.SessionDoesntExist := by
  have hreq : (create mgr fresh_id file p st).2.requesters = mgr.requesters := rfl
  refine ⟨?_, ?_, ?_, ?_, ?_⟩
  · unfold create lookupS
    simp [List.find?]
  · unfold get_segment
    rw [hreq, h]
  · unfold eta_for_seg
    rw [hreq, h]
  · unfold should_client_hard_seek
    rw [hreq, h]
  · unfold exists_session
    rw [hreq, h]

/-- Witness for C10: creating a session in the sample manager, whose
requester map is empty, leaves the new id queryable in the sessions map
while get_segment answers SessionDoesntExist. -/
theorem c10_witness :
    lookupR sampleManager.requesters "fresh" = none ∧
    (lookupS (create sampleManager "fresh" "g.mkv" { tag := "q" }
      StreamType.transcode).2.sessions "fresh").isSome = true ∧
    get_segment (create sampleManager "fresh" "g.mkv" { tag := "q" }
      StreamType.transcode).2 "fresh" 4 =
      some (Except.error NightfallError.SessionDoesntExist) := by
  have h := c10_pre_init_session_doesnt_exist sampleManager "fresh" "g.mkv"
    { tag := "q" } StreamType.transcode 4 0 rfl
  exact ⟨rfl, h.1, h.2.1⟩

end Nightfall
